import Mathlib

/-!
Shallow embedding of the real-time speech-transcription pipeline of
`backend/speect_to_text.py`.

The embedding covers:
* `MicrophoneStream.generator` (lines 61-82): the chunk sequence built from
  the thread-safe buffer, with its blocking pop / non-blocking drain loop and
  the `None` end-of-stream sentinel;
* the response loop of `listen_and_transcribe` (lines 110-129): the
  cancellation check, the silent drop of responses without usable results,
  forwarding of `(transcript, is_final)` pairs, and the exit-command scan
  `re.search(r"\b(exit|quit)\b", transcript, re.I)`;
* the Streamlit button handlers of `main` (lines 162-190): the
  `listening` flag, the `stop_event` cancellation signal, the worker thread
  reference, and the process-lifetime result queue.

Python queues are modelled as Lean lists, threads by explicit identifiers,
and the nondeterministic timing of the non-blocking drain by an explicit
schedule parameter.  Machine-level details (actual audio bytes, PyAudio
buffers) are opaque: chunks are values of an arbitrary type.
-/

namespace SpeechToText

/-! ## Exit-command regular expression

`listen_and_transcribe` line 128 runs
`re.search(r"\b(exit|quit)\b", transcript, re.I)`.
For ASCII text, `\b` holds at a position iff exactly one side of it is a
word character (letter, digit or underscore); since `exit` and `quit`
consist solely of word characters, the regex matches iff the text contains
`exit` or `quit` case-insensitively, with no word character immediately
before or after the occurrence. -/

/-- A word character in the sense of the regex metacharacter `\b`
(ASCII: letters, digits, underscore). -/
def isWordChar (c : Char) : Bool :=
  c.isAlpha || c.isDigit || c == '_'

/-- Case-insensitive character comparison (regex flag `re.I`). -/
def charEqCI (a b : Char) : Bool :=
  a.toLower == b.toLower

/-- `startsWithCI w s` : `s` begins with the word `w`, case-insensitively. -/
def startsWithCI : List Char → List Char → Bool
  | [], _ => true
  | _ :: _, [] => false
  | w :: ws, c :: cs => charEqCI w c && startsWithCI ws cs

/-- The `\b` boundary after a word made of word characters: the following
character is absent or not a word character. -/
def boundaryAfter : List Char → Bool
  | [] => true
  | c :: _ => !isWordChar c

/-- The `\b` boundary before a word made of word characters: the preceding
character is absent or not a word character. -/
def boundaryBefore : Option Char → Bool
  | none => true
  | some c => !isWordChar c

/-- Scan `s` for a whole-word, case-insensitive occurrence of `w`;
`prev` is the character immediately preceding `s` in the scanned text
(`none` at the start of the text). -/
def scanWholeWord (w : List Char) : Option Char → List Char → Bool
  | prev, [] =>
    -- the empty suffix holds no occurrence of a nonempty word
    let _ := prev
    false
  | prev, c :: cs =>
    (boundaryBefore prev && startsWithCI w (c :: cs)
      && boundaryAfter ((c :: cs).drop w.length))
    || scanWholeWord w (some c) cs

/-- Embedding of `re.search(r"\b(exit|quit)\b", transcript, re.I)`
(line 128), as a Boolean on the transcript's character list. -/
def containsExitCommand (t : List Char) : Bool :=
  scanWholeWord "exit".data none t || scanWholeWord "quit".data none t

/-! ## ASR response data model

Faithful to the fields the source reads: `response.results`,
`response.results[0]`, `result.alternatives`,
`result.alternatives[0].transcript`, `result.is_final`. -/

/-- One alternative transcription hypothesis of a recognition result. -/
structure SpeechRecognitionAlternative where
  transcript : List Char
deriving DecidableEq

/-- One streaming recognition result: zero or more alternatives and a
finality flag. -/
structure StreamingRecognitionResult where
  alternatives : List SpeechRecognitionAlternative
  is_final : Bool
deriving DecidableEq

/-- One response of the streaming-recognize call: a list of results. -/
structure StreamingRecognizeResponse where
  results : List StreamingRecognitionResult
deriving DecidableEq

/-- A pair placed on the result channel: `(transcript, is_final)`. -/
abbrev ResultPair := List Char × Bool

/-- Embedding of the response loop of `listen_and_transcribe`
(lines 110-129).  `sig i` is the value `stop_event.is_set()` returns at the
check preceding response number `i` (responses numbered in arrival order
starting from the given index).  Returns the list of pairs put on
`result_queue`, in order.  Per iteration: break if the signal is set;
skip responses with no results; skip when the first result has no
alternatives; otherwise put `(alternatives[0].transcript, is_final)` on the
queue, then break if the result is final and its transcript matches the
exit regex. -/
def processResponses (sig : Nat → Bool) :
    Nat → List StreamingRecognizeResponse → List ResultPair
  | _, [] => []
  | i, r :: rest =>
    if sig i then []
    else
      match r.results with
      | [] => processResponses sig (i + 1) rest
      | result :: _ =>
        match result.alternatives with
        | [] => processResponses sig (i + 1) rest
        | alt :: _ =>
          if result.is_final && containsExitCommand alt.transcript then
            [(alt.transcript, result.is_final)]
          else
            (alt.transcript, result.is_final) ::
              processResponses sig (i + 1) rest

/-- The pair the loop body would forward for one response, if any: read off
the FIRST result of the response and its FIRST alternative (lines 114-125). -/
def forwardedOfResponse (r : StreamingRecognizeResponse) : Option ResultPair :=
  match r.results with
  | [] => none
  | result :: _ =>
    match result.alternatives with
    | [] => none
    | alt :: _ => some (alt.transcript, result.is_final)

/-! ## MicrophoneStream generator

`generator` (lines 61-82) pulls from the thread-safe buffer `self._buff`:
a blocking `get()` first, then non-blocking `get(block=False)` calls until
`queue.Empty`, collecting a batch that is yielded joined.  The value `None`
is the end-of-stream sentinel.  Timing decides how the pushed items split
into iterations; the embedding takes that schedule as input: one round per
outer-loop iteration, given as the item returned by the blocking `get()`
paired with the items the non-blocking drain finds before the queue
momentarily empties. -/

/-- The inner drain loop (lines 72-80), with accumulator `data`.
`some batch` models reaching `queue.Empty` and proceeding to
`yield b"".join(data)`; `none` models finding the sentinel, where the code
executes `return`, discarding `data`. -/
def drainLoop : List (Option α) → List α → Option (List α)
  | [], data => some data
  | none :: _, _ => none
  | some c :: rest, data => drainLoop rest (data ++ [c])

/-- Embedding of `MicrophoneStream.generator` (lines 61-82) over a schedule
of rounds.  Each round is `(blocking-get item, items found by the drain)`.
Returns the list of yielded batches (each batch the list of chunks joined by
`b"".join`).  The stream stays open (`self.closed` false) until the sentinel
is consumed, as in the `with`-block use at lines 100-107. -/
def generator : List (Option α × List (Option α)) → List (List α)
  | [] => []
  | (none, _) :: _ => []
  | (some c, restRound) :: rounds =>
    match drainLoop restRound [c] with
    | none => []
    | some data => data :: generator rounds

/-- The chunks a round carries, in push order (sentinels excluded). -/
def roundChunks (r : Option α × List (Option α)) : List α :=
  r.1.toList ++ r.2.filterMap id

/-! ## Session state and button handlers (`main`, lines 162-190) -/

/-- The fields of `st.session_state` the lifecycle code touches, plus the
result queue contents. `thread` holds the identifier of the worker thread
object currently referenced, if any. -/
structure AppState where
  listening : Bool
  stopEventSet : Bool
  thread : Option Nat
  resultQueue : List ResultPair
deriving DecidableEq

/-- The spec's abstract session state, read off the concrete fields:
`listening` true is Listening; stop already requested but the worker thread
still referenced (the window in which the stop handler joins on it) is
Stopping; otherwise Idle. -/
inductive SessionPhase
  | Idle
  | Listening
  | Stopping
deriving DecidableEq

/-- Map the concrete `st.session_state` fields to the abstract phase. -/
def sessionStateOf (s : AppState) : SessionPhase :=
  if s.listening then .Listening
  else if s.thread.isSome then .Stopping
  else .Idle

/-- The fixed timeout, in seconds, of `thread.join(timeout=1)` (line 188). -/
def joinTimeoutSeconds : Nat := 1

/-- Embedding of the start-button handler (lines 172-181): guarded by
`start_button and not st.session_state.listening`; on the taken branch it
clears `stop_event`, sets `listening`, and spawns the worker thread
(identified by `newThreadId`).  The returned Boolean records whether a new
worker was spawned. -/
def handleStart (startButton : Bool) (s : AppState) (newThreadId : Nat) :
    AppState × Bool :=
  if startButton && !s.listening then
    ({ s with stopEventSet := false, listening := true,
              thread := some newThreadId }, true)
  else (s, false)

/-- The contents of `st.session_state` while `thread.join(timeout=1)` is in
progress: `stop_event.set()` and `st.session_state.listening = False`
(lines 185-186) have already executed, the thread reference is still held. -/
def midStopState (s : AppState) : AppState :=
  { s with stopEventSet := true, listening := false }

/-- Embedding of the stop-button handler (lines 184-190): guarded by
`stop_button and st.session_state.listening`; on the taken branch it sets
the cancellation signal, clears `listening`, and, if a thread is referenced,
joins it with the fixed timeout and drops the reference.  `workerExited`
records whether the worker terminated within the timeout; `join` returns
either way and the handler never reads it, so the resulting state does not
depend on it.  The second component is `some t` when the handler waited on
the worker with timeout `t`. -/
def handleStop (stopButton : Bool) (workerExited : Bool) (s : AppState) :
    AppState × Option Nat :=
  let _ := workerExited
  if stopButton && s.listening then
    let s1 := midStopState s
    if s1.thread.isSome then ({ s1 with thread := none }, some joinTimeoutSeconds)
    else (s1, none)
  else (s, none)

/-! ## Worker outcome and error paths -/

/-- Exceptions that can escape `listen_and_transcribe`: a failure of
`pyaudio.open` inside `MicrophoneStream.__enter__` (lines 31-45), or a
failure of the streaming-recognize call / response iteration (line 107-110). -/
inductive WorkerError
  | deviceOpenFailed
  | serviceError
deriving DecidableEq

/-- Embedding of `listen_and_transcribe` (lines 85-129) as observed from
the result channel.  `openOk` is whether the device open succeeds,
`serviceOk` whether the streaming call yields a response stream; an
exception propagates out of the thread target and the run produces
`.error e` with nothing further queued. -/
def runWorker (openOk serviceOk : Bool) (sig : Nat → Bool)
    (responses : List StreamingRecognizeResponse) :
    Except WorkerError (List ResultPair) :=
  if !openOk then .error .deviceOpenFailed
  else if !serviceOk then .error .serviceError
  else .ok (processResponses sig 0 responses)

/-- Effect on `st.session_state` of the worker thread dying with an
exception: none.  No code in `main` or `listen_and_transcribe` catches the
worker's exceptions or resets `listening`; the daemon thread simply ends
(the `try`/`except` at lines 194-217 wraps only the caller's own
result-processing loop). -/
def stateAfterWorkerError (s : AppState) : AppState := s

/-- `st.session_state` initialisation (lines 166-167): the result queue is
created only when the key is absent, so across reruns and sessions an
existing queue, with whatever it still holds, is reused. -/
def initResultQueue (existing : Option (List ResultPair)) : List ResultPair :=
  existing.getD []

/-- The `MicrophoneStream` object fields relevant here. -/
structure MicrophoneStream where
  rate : Nat
  chunk : Nat
  buff : List (Option (List Nat))
  closed : Bool

/-- Embedding of `MicrophoneStream.__init__` (lines 22-29): every
construction makes a fresh, empty buffer, with `closed = True`.
One is constructed per `listen_and_transcribe` call (line 100). -/
def MicrophoneStream.init (rate chunk : Nat) : MicrophoneStream :=
  { rate := rate, chunk := chunk, buff := [], closed := true }

/-! ## Concrete test inputs -/

/-- A response carrying a single result with a single alternative. -/
def mkResponse (t : List Char) (b : Bool) : StreamingRecognizeResponse :=
  { results := [{ alternatives := [{ transcript := t }], is_final := b }] }

/-- The scripted stream of the spec's test property: interim `"hel"`,
interim `"hello"`, then final `"hello world"`. -/
def scriptedStream : List StreamingRecognizeResponse :=
  [mkResponse "hel".data false, mkResponse "hello".data false,
   mkResponse "hello world".data true]

/-- A response whose first result has no alternatives while its second
result does. -/
def respTwoResults : StreamingRecognizeResponse :=
  { results := [ { alternatives := [], is_final := false },
                 { alternatives := [{ transcript := "x".data }],
                   is_final := false } ] }

/-! ## Theorems -/

/-- Claim C4: calling start() while the state is already Listening is a
no-op with no state change — no second worker is spawned, the cancellation
signal is not cleared, the state remains Listening. -/
theorem start_when_listening_noop :
    ∀ (s : AppState) (tid : Nat), s.listening = true →
      handleStart true s tid = (s, false)
      ∧ sessionStateOf s = SessionPhase.Listening := by
  intro s tid h
  constructor
  · simp [handleStart, h]
  · simp [sessionStateOf, h]

/-- Witness for C4 at a concrete Listening state (signal set, worker 5):
the handler changes nothing and spawns no worker. -/
theorem start_when_listening_noop_instance :
    (⟨true, true, some 5, []⟩ : AppState).listening = true
    ∧ (handleStart true ⟨true, true, some 5, []⟩ 9
         = (⟨true, true, some 5, []⟩, false)
       ∧ sessionStateOf ⟨true, true, some 5, []⟩ = SessionPhase.Listening) :=
  ⟨rfl, start_when_listening_noop ⟨true, true, some 5, []⟩ 9 rfl⟩

/-- Claim C5: calling stop() when the state is Idle is a no-op — no state
change, the cancellation signal is not set, and it returns without waiting
on the worker (`none` in the second component: no join was performed). -/
theorem stop_when_idle_noop :
    ∀ (s : AppState) (workerExited : Bool),
      sessionStateOf s = SessionPhase.Idle →
      handleStop true workerExited s = (s, none) := by
  intro s we h
  cases hl : s.listening with
  | true => simp [sessionStateOf, hl] at h
  | false => simp [handleStop, hl]

/-- Witness for C5 at the fresh Idle state. -/
theorem stop_when_idle_noop_instance :
    sessionStateOf ⟨false, false, none, []⟩ = SessionPhase.Idle
    ∧ handleStop true false ⟨false, false, none, []⟩
        = (⟨false, false, none, []⟩, none) :=
  ⟨rfl, stop_when_idle_noop ⟨false, false, none, []⟩ false rfl⟩

/-- Claim C6: calling stop() on a Listening session sets the cancellation
signal, passes through the Stopping phase (signal set, worker still
referenced) while waiting up to the fixed `joinTimeoutSeconds`, and ends
Idle for every value of `workerExited` — whether or not the worker has
fully exited. -/
theorem stop_when_listening_behavior :
    ∀ (s : AppState) (tid : Nat) (workerExited : Bool),
      s.listening = true → s.thread = some tid →
      handleStop true workerExited s
        = ({ midStopState s with thread := none }, some joinTimeoutSeconds)
      ∧ (midStopState s).stopEventSet = true
      ∧ sessionStateOf (midStopState s) = SessionPhase.Stopping
      ∧ sessionStateOf { midStopState s with thread := none }
          = SessionPhase.Idle := by
  intro s tid we h ht
  refine ⟨?_, rfl, ?_, ?_⟩
  · simp [handleStop, midStopState, h, ht]
  · simp [sessionStateOf, midStopState, ht]
  · simp [sessionStateOf, midStopState]

/-- Witness for C6 at a concrete Listening state with worker 3. -/
theorem stop_when_listening_behavior_instance :
    (⟨true, false, some 3, []⟩ : AppState).listening = true
    ∧ (⟨true, false, some 3, []⟩ : AppState).thread = some 3
    ∧ (handleStop true false ⟨true, false, some 3, []⟩
         = ({ midStopState ⟨true, false, some 3, []⟩ with thread := none },
            some joinTimeoutSeconds)
       ∧ (midStopState ⟨true, false, some 3, []⟩).stopEventSet = true
       ∧ sessionStateOf (midStopState ⟨true, false, some 3, []⟩)
           = SessionPhase.Stopping
       ∧ sessionStateOf
           { midStopState ⟨true, false, some 3, []⟩ with thread := none }
           = SessionPhase.Idle) :=
  ⟨rfl, rfl, stop_when_listening_behavior ⟨true, false, some 3, []⟩ 3 false rfl rfl⟩

/-- Claim C7 (amended): if the device open fails, the worker dies with the
device error before queuing anything, but the start handler has already
transitioned to Listening and the worker's death changes no session state:
the state remains Listening — it is NOT returned to Idle, and no failure of
the start() call is reported. -/
theorem device_failure_leaves_listening :
    ∀ (s : AppState) (tid : Nat) (sig : Nat → Bool)
      (rs : List StreamingRecognizeResponse),
      s.listening = false →
      runWorker false true sig rs = Except.error WorkerError.deviceOpenFailed
      ∧ stateAfterWorkerError (handleStart true s tid).1
          = (handleStart true s tid).1
      ∧ sessionStateOf (stateAfterWorkerError (handleStart true s tid).1)
          = SessionPhase.Listening
      ∧ (stateAfterWorkerError (handleStart true s tid).1).resultQueue
          = s.resultQueue := by
  intro s tid sig rs h
  refine ⟨rfl, rfl, ?_, ?_⟩
  · simp [handleStart, stateAfterWorkerError, sessionStateOf, h]
  · simp [handleStart, stateAfterWorkerError, h]

/-- Witness for C7's amended statement, from the fresh Idle state. -/
theorem device_failure_leaves_listening_instance :
    (⟨false, false, none, []⟩ : AppState).listening = false
    ∧ (runWorker false true (fun _ => false) []
         = Except.error WorkerError.deviceOpenFailed
       ∧ stateAfterWorkerError (handleStart true ⟨false, false, none, []⟩ 1).1
           = (handleStart true ⟨false, false, none, []⟩ 1).1
       ∧ sessionStateOf
           (stateAfterWorkerError (handleStart true ⟨false, false, none, []⟩ 1).1)
           = SessionPhase.Listening
       ∧ (stateAfterWorkerError
            (handleStart true ⟨false, false, none, []⟩ 1).1).resultQueue
           = (⟨false, false, none, []⟩ : AppState).resultQueue) :=
  ⟨rfl, device_failure_leaves_listening ⟨false, false, none, []⟩ 1 (fun _ => false) [] rfl⟩

/-- Counterexample to claim C7 as stated: starting from Idle, the start
handler spawns the worker, the device open fails, and the resulting session
state is Listening — not Idle as the claim requires. -/
theorem device_failure_state_counterexample :
    runWorker false true (fun _ => false) []
      = Except.error WorkerError.deviceOpenFailed
    ∧ (handleStart true ⟨false, false, none, []⟩ 1).2 = true
    ∧ sessionStateOf
        (stateAfterWorkerError (handleStart true ⟨false, false, none, []⟩ 1).1)
        = SessionPhase.Listening
    ∧ sessionStateOf
        (stateAfterWorkerError (handleStart true ⟨false, false, none, []⟩ 1).1)
        ≠ SessionPhase.Idle :=
  ⟨rfl, rfl, rfl, by decide⟩

/-- Claim C9 (amended): on an unrecoverable worker error (the transcription
service failing), the worker dies with the error and no code resets the
session state: it remains Listening until the caller intervenes — the core
does not return it to Idle. -/
theorem worker_error_leaves_listening :
    ∀ (s : AppState) (tid : Nat) (sig : Nat → Bool)
      (rs : List StreamingRecognizeResponse),
      s.listening = false →
      runWorker true false sig rs = Except.error WorkerError.serviceError
      ∧ stateAfterWorkerError (handleStart true s tid).1
          = (handleStart true s tid).1
      ∧ sessionStateOf (stateAfterWorkerError (handleStart true s tid).1)
          = SessionPhase.Listening := by
  intro s tid sig rs h
  refine ⟨rfl, rfl, ?_⟩
  simp [handleStart, stateAfterWorkerError, sessionStateOf, h]

/-- Witness for C9's amended statement, from the fresh Idle state. -/
theorem worker_error_leaves_listening_instance :
    (⟨false, false, none, []⟩ : AppState).listening = false
    ∧ (runWorker true false (fun _ => false) []
         = Except.error WorkerError.serviceError
       ∧ stateAfterWorkerError (handleStart true ⟨false, false, none, []⟩ 2).1
           = (handleStart true ⟨false, false, none, []⟩ 2).1
       ∧ sessionStateOf
           (stateAfterWorkerError (handleStart true ⟨false, false, none, []⟩ 2).1)
           = SessionPhase.Listening) :=
  ⟨rfl, worker_error_leaves_listening ⟨false, false, none, []⟩ 2 (fun _ => false) [] rfl⟩

/-- Counterexample to claim C9 as stated: a service failure kills the
worker, yet the session state stays Listening — the core does not return it
to Idle. -/
theorem worker_error_state_counterexample :
    runWorker true false (fun _ => false) []
      = Except.error WorkerError.serviceError
    ∧ sessionStateOf
        (stateAfterWorkerError (handleStart true ⟨false, false, none, []⟩ 2).1)
        = SessionPhase.Listening
    ∧ sessionStateOf
        (stateAfterWorkerError (handleStart true ⟨false, false, none, []⟩ 2).1)
        ≠ SessionPhase.Idle :=
  ⟨rfl, rfl, by decide⟩

/-- Claim C10: the result channel is one process-lifetime queue — the
initialisation reuses an existing queue with its contents, and neither the
start handler nor the stop handler touches it, so undrained results survive
into the next session — whereas every `MicrophoneStream` construction makes
a fresh empty chunk buffer. -/
theorem result_queue_persistence :
    ∀ (b : Bool) (s : AppState) (tid : Nat) (we : Bool)
      (q : List ResultPair) (rate chunk : Nat),
      (handleStart b s tid).1.resultQueue = s.resultQueue
      ∧ (handleStop b we s).1.resultQueue = s.resultQueue
      ∧ initResultQueue (some q) = q
      ∧ (MicrophoneStream.init rate chunk).buff = [] := by
  intro b s tid we q rate chunk
  refine ⟨?_, ?_, rfl, rfl⟩
  · unfold handleStart
    split <;> rfl
  · unfold handleStop
    simp only
    split
    · split <;> rfl
    · rfl

/-- Helper for C2: with the cancellation signal never set, the response loop
forwards exactly the pair of each response's first result (first
alternative), in order, provided no forwarded final transcript matches the
exit regex. -/
theorem processResponses_forwards_all :
    ∀ (rs : List StreamingRecognizeResponse) (i : Nat),
      (∀ p ∈ rs.filterMap forwardedOfResponse,
        ¬(p.2 = true ∧ containsExitCommand p.1 = true)) →
      processResponses (fun _ => false) i rs
        = rs.filterMap forwardedOfResponse := by
  intro rs
  induction rs with
  | nil => intro i h; rfl
  | cons r rest ih =>
    intro i h
    obtain ⟨results⟩ := r
    cases results with
    | nil =>
      have hrest : ∀ p ∈ rest.filterMap forwardedOfResponse,
          ¬(p.2 = true ∧ containsExitCommand p.1 = true) := by
        intro p hp
        exact h p (by simp [forwardedOfResponse, List.filterMap_cons, hp])
      simp [processResponses, forwardedOfResponse, List.filterMap_cons,
        ih (i + 1) hrest]
    | cons result more =>
      obtain ⟨alts, fin⟩ := result
      cases alts with
      | nil =>
        have hrest : ∀ p ∈ rest.filterMap forwardedOfResponse,
            ¬(p.2 = true ∧ containsExitCommand p.1 = true) := by
          intro p hp
          exact h p (by simp [forwardedOfResponse, List.filterMap_cons, hp])
        simp [processResponses, forwardedOfResponse, List.filterMap_cons,
          ih (i + 1) hrest]
      | cons alt altsMore =>
        have hp : (alt.transcript, fin) ∈
            (({ results :=
                  { alternatives := alt :: altsMore, is_final := fin } :: more } :
              StreamingRecognizeResponse) :: rest).filterMap
              forwardedOfResponse := by
          simp [forwardedOfResponse, List.filterMap_cons]
        have hno := h _ hp
        have hcond : (fin && containsExitCommand alt.transcript) = false := by
          cases fin <;> cases hex : containsExitCommand alt.transcript <;>
            simp_all
        have hrest : ∀ p ∈ rest.filterMap forwardedOfResponse,
            ¬(p.2 = true ∧ containsExitCommand p.1 = true) := by
          intro p hpr
          exact h p (by simp [forwardedOfResponse, List.filterMap_cons, hpr])
        simp [processResponses, forwardedOfResponse, List.filterMap_cons,
          hcond, ih (i + 1) hrest]

/-- Claim C2 (amended): only the FIRST result of each response is
considered.  With the cancellation signal never set: for every response
whose first result has at least one alternative, the worker forwards
`(first alternative's transcript, is_final)` in arrival order, provided no
forwarded final transcript matches the exit command; responses with no
results, or whose first result has no alternatives, are dropped silently.
The scripted stream — interim `"hel"`, interim `"hello"`, final
`"hello world"` — yields exactly those three pairs, in order. -/
theorem responseLoop_forwards_first_result :
    (∀ (rs : List StreamingRecognizeResponse),
      (∀ p ∈ rs.filterMap forwardedOfResponse,
        ¬(p.2 = true ∧ containsExitCommand p.1 = true)) →
      processResponses (fun _ => false) 0 rs
        = rs.filterMap forwardedOfResponse)
    ∧ processResponses (fun _ => false) 0 scriptedStream
        = [("hel".data, false), ("hello".data, false),
           ("hello world".data, true)] := by
  constructor
  · intro rs h
    exact processResponses_forwards_all rs 0 h
  · rfl

/-- Witness for C2's amended statement at the scripted stream. -/
theorem responseLoop_forwards_first_result_instance :
    (∀ p ∈ scriptedStream.filterMap forwardedOfResponse,
      ¬(p.2 = true ∧ containsExitCommand p.1 = true))
    ∧ processResponses (fun _ => false) 0 scriptedStream
        = scriptedStream.filterMap forwardedOfResponse :=
  ⟨by decide, responseLoop_forwards_first_result.1 scriptedStream (by decide)⟩

/-- Counterexample to claim C2 as stated: a response whose first result has
no alternatives but whose second result does.  The stream contains a
recognition result with an alternative, yet the result channel receives
nothing — the loop reads only `response.results[0]`. -/
theorem responseLoop_skips_later_results :
    processResponses (fun _ => false) 0 [respTwoResults] = []
    ∧ (respTwoResults.results.any
        fun result => !result.alternatives.isEmpty) = true :=
  ⟨rfl, rfl⟩

/-- Claim C3: the exit scan runs only on final results — an interim result
is always forwarded and never ends the loop, whatever its transcript; a
final result whose transcript matches `\b(exit|quit)\b` (case-insensitive)
is forwarded FIRST and then the loop ends.  Concretely: "please exit now"
matches, "Please QUIT now." matches, "the exitway is blocked" and
"quitting time" do not. -/
theorem exit_command_policy :
    (∀ (t : List Char) (rest : List StreamingRecognizeResponse)
       (sig : Nat → Bool) (i : Nat),
      sig i = false →
      processResponses sig i (mkResponse t false :: rest)
        = (t, false) :: processResponses sig (i + 1) rest)
    ∧ (∀ (t : List Char) (rest : List StreamingRecognizeResponse)
        (sig : Nat → Bool) (i : Nat),
        sig i = false → containsExitCommand t = true →
        processResponses sig i (mkResponse t true :: rest) = [(t, true)])
    ∧ containsExitCommand "please exit now".data = true
    ∧ containsExitCommand "Please QUIT now.".data = true
    ∧ containsExitCommand "the exitway is blocked".data = false
    ∧ containsExitCommand "quitting time".data = false := by
  refine ⟨?_, ?_, by decide, by decide, by decide, by decide⟩
  · intro t rest sig i hsig
    simp [processResponses, mkResponse, hsig]
  · intro t rest sig i hsig hexit
    simp [processResponses, mkResponse, hsig, hexit]

/-- Witness for C3: a final "please exit now" is forwarded and then the
loop ends, dropping the rest of the stream. -/
theorem exit_command_policy_instance :
    ((fun _ : Nat => false) 0 = false
      ∧ containsExitCommand "please exit now".data = true)
    ∧ processResponses (fun _ => false) 0
        [mkResponse "please exit now".data true,
         mkResponse "never delivered".data false]
        = [("please exit now".data, true)] :=
  ⟨⟨rfl, by decide⟩,
   exit_command_policy.2.1 "please exit now".data
     [mkResponse "never delivered".data false] (fun _ => false) 0 rfl
     (by decide)⟩

/-- Helper for C8: if the cancellation signal reads true at every check
from index `k` on, the loop's output does not depend on any response from
index `k` on. -/
theorem processResponses_cutoff (sig : Nat → Bool) (k : Nat) :
    ∀ (rs : List StreamingRecognizeResponse) (i : Nat),
      (∀ j, k ≤ j → sig j = true) →
      processResponses sig i rs
        = processResponses sig i (rs.take (k - i)) := by
  intro rs
  induction rs with
  | nil => intro i h; simp
  | cons r rest ih =>
    intro i h
    by_cases hik : k ≤ i
    · have hsig := h i hik
      have hz : k - i = 0 := Nat.sub_eq_zero_of_le hik
      simp [hz, processResponses, hsig]
    · have harith : k - i = (k - (i + 1)) + 1 := by omega
      rw [harith, List.take_succ_cons]
      cases hsig : sig i with
      | true => simp [processResponses, hsig]
      | false =>
        obtain ⟨results⟩ := r
        cases results with
        | nil => simp [processResponses, hsig, ih (i + 1) h]
        | cons result more =>
          obtain ⟨alts, fin⟩ := result
          cases alts with
          | nil => simp [processResponses, hsig, ih (i + 1) h]
          | cons alt altsMore =>
            cases hex : (fin && containsExitCommand alt.transcript) with
            | true => simp [processResponses, hsig, hex]
            | false => simp [processResponses, hsig, hex, ih (i + 1) h]

/-- Claim C8: the worker checks the cancellation signal between result
deliveries.  If the signal reads true at every check from index `k` on
(it is set once and stays set), the loop's output is exactly the output on
the first `k` responses: nothing from index `k` on is forwarded, so after
the instant the signal is set at most the one in-flight result (the one
whose check preceded the set) is still forwarded, and the loop exits
without relying on the stream ending. -/
theorem cancellation_bounds_forwarding :
    ∀ (responses : List StreamingRecognizeResponse) (sig : Nat → Bool)
      (k : Nat),
      (∀ j, k ≤ j → sig j = true) →
      processResponses sig 0 responses
        = processResponses sig 0 (responses.take k) := by
  intro responses sig k h
  have hc := processResponses_cutoff sig k responses 0 h
  simpa using hc

/-- Witness for C8: with the signal set from the start, nothing is
forwarded at all. -/
theorem cancellation_bounds_forwarding_instance :
    processResponses (fun _ => true) 0 [mkResponse "dropped".data true] = [] :=
  (cancellation_bounds_forwarding [mkResponse "dropped".data true]
    (fun _ => true) 0 (fun _ _ => rfl)).trans rfl

/-- Helper for C1: the drain loop on a stretch without the sentinel
collects every chunk, in order, onto the accumulator. -/
theorem drainLoop_all_some :
    ∀ (l : List (Option α)) (data : List α), l.all Option.isSome = true →
      drainLoop l data = some (data ++ l.filterMap id) := by
  intro l
  induction l with
  | nil => intro data h; simp [drainLoop]
  | cons o rest ih =>
    intro data h
    cases o with
    | none => simp [List.all_cons] at h
    | some c =>
      have hrest : rest.all Option.isSome = true := by
        simpa [List.all_cons] using h
      simp [drainLoop, ih (data ++ [c]) hrest, List.filterMap_cons]

/-- Helper for C1: the drain loop discards its whole accumulator when it
meets the sentinel, however many chunks precede it. -/
theorem drainLoop_hits_sentinel :
    ∀ (mid : List α) (data : List α),
      drainLoop (mid.map some ++ [none]) data = none := by
  intro mid
  induction mid with
  | nil => intro data; simp [drainLoop]
  | cons c rest ih => intro data; simp [drainLoop, ih]

/-- Helper for C1: a round whose blocking pop returns a chunk and whose
drain meets no sentinel yields that round's chunks as one batch. -/
theorem generator_complete_round (c : α) (l : List (Option α))
    (rounds : List (Option α × List (Option α)))
    (h : l.all Option.isSome = true) :
    generator ((some c, l) :: rounds)
      = (c :: l.filterMap id) :: generator rounds := by
  simp [generator, drainLoop_all_some l [c] h]

/-- Claim C1 (amended): over any schedule of sentinel-free rounds, the
generator yields exactly the pushed chunks in push order, one batch per
round, and terminates — when the sentinel is obtained by the blocking pop.
But when the sentinel is met DURING the non-blocking drain, the chunks of
that last round (the blocking-pop chunk `c` and the drained `mid`) are
DISCARDED, not emitted: only the earlier rounds' chunks are yielded. -/
theorem generator_yield_behavior :
    ∀ (rounds : List (Option Nat × List (Option Nat))),
      (∀ r ∈ rounds, r.1.isSome = true ∧ r.2.all Option.isSome = true) →
      generator (rounds ++ [(none, [])]) = rounds.map roundChunks
      ∧ ∀ (c : Nat) (mid : List Nat),
          generator (rounds ++ [(some c, mid.map some ++ [none])])
            = rounds.map roundChunks := by
  intro rounds
  induction rounds with
  | nil =>
    intro _
    constructor
    · rfl
    · intro c mid
      simp [generator, drainLoop_hits_sentinel mid [c]]
  | cons r rest ih =>
    intro h
    have hr := h r (by simp)
    have hrest : ∀ x ∈ rest, x.1.isSome = true ∧ x.2.all Option.isSome = true :=
      fun x hx => h x (by simp [hx])
    obtain ⟨o, l⟩ := r
    obtain ⟨c0, ho⟩ := Option.isSome_iff_exists.mp hr.1
    subst ho
    constructor
    · rw [List.cons_append, generator_complete_round c0 l _ hr.2, (ih hrest).1]
      simp [roundChunks]
    · intro c mid
      rw [List.cons_append, generator_complete_round c0 l _ hr.2,
        (ih hrest).2 c mid]
      simp [roundChunks]

/-- Witness for C1's amended statement: one complete round pushing chunks
1 and 2; with the sentinel alone in the next round both are yielded, with
the sentinel met during the drain of a round pushing 3 and 4 those are
dropped. -/
theorem generator_yield_behavior_instance :
    (∀ r ∈ [((some 1 : Option Nat), [some 2])],
      r.1.isSome = true ∧ r.2.all Option.isSome = true)
    ∧ generator [((some 1 : Option Nat), [some 2]), (none, [])] = [[1, 2]]
    ∧ generator [((some 1 : Option Nat), [some 2]), (some 3, [some 4, none])]
        = [[1, 2]] := by
  have h := generator_yield_behavior [((some 1 : Option Nat), [some 2])]
    (by decide)
  exact ⟨by decide, h.1.trans (by decide), (h.2 3 [4]).trans (by decide)⟩

/-- Counterexample to claim C1 as stated: one chunk is pushed, then the
sentinel; the blocking pop returns the chunk and the drain meets the
sentinel.  The claim requires the chunk collected so far to still be
emitted, i.e. the yielded batches to concatenate to `[0]` — but the
generator yields nothing at all. -/
theorem generator_drops_chunks_on_sentinel_during_drain :
    generator [((some 0 : Option Nat), [none])] = []
    ∧ roundChunks ((some 0 : Option Nat), ([none] : List (Option Nat))) = [0]
    ∧ (generator [((some 0 : Option Nat), [none])]).flatten ≠ [0] :=
  ⟨rfl, by decide, by decide⟩

end SpeechToText
